import Mathlib

/-!
Verification of the `ax` CLI configuration / error-formatting core.

The definitions below are shallow embeddings of the Python source:
* `src/ax/config/manager.py` — profile store, env-var expansion, value coercion
* `src/ax/config/schema.py` — pydantic schema validators
* `src/ax/core/error_formatter.py` — gRPC transport-error classification
* `src/ax/core/output.py` — output format dispatch

Strings that the Python code manipulates character by character are modelled
as `List Char` (abbreviated `Str`); plain identifiers (profile names, dict
keys) are Lean `String`s.  Fallible Python code (raising exceptions) is
modelled with `Except`/`Option`.
-/

set_option linter.unusedVariables false
set_option autoImplicit false

namespace AxCli

/-- Character strings manipulated by the code. -/
abbrev Str := List Char

/-- Python `str._is_whitespace_` for the ASCII whitespace characters that
`str.strip()` removes (space, tab, newline, carriage return, vertical tab,
form feed). -/
def isPySpace (c : Char) : Bool :=
  c = ' ' || c = '\t' || c = '\n' || c = '\r' || c = '\x0b' || c = '\x0c'

/-- Python `str.strip()` on a character list: drop leading and trailing
whitespace. -/
def pyStrip (s : Str) : Str :=
  ((s.dropWhile isPySpace).reverse.dropWhile isPySpace).reverse

/-- Python `str.lower()` restricted to ASCII letters (the only case the
config code exercises). -/
def pyLowerChar (c : Char) : Char :=
  if 'A' ≤ c ∧ c ≤ 'Z' then Char.ofNat (c.toNat + 32) else c

/-- `str.strip()` lifted to Lean `String`. -/
def pyStripS (s : String) : String := ⟨pyStrip s.data⟩

/-- `str.lower()` lifted to Lean `String`. -/
def pyLowerS (s : String) : String := ⟨s.data.map pyLowerChar⟩

/-! ## `_to_bool` (`src/ax/config/manager.py`, lines 234-247) -/

/-- The `bool | str` input type of `_to_bool`. -/
inductive BoolOrStr where
  | bool (b : Bool)
  | str (s : String)
  deriving DecidableEq, Repr

/-- `_to_bool`: a `bool` passes through; a string is stripped, lowercased and
compared against the truthy set `{"1", "true", "yes", "on"}`. -/
def to_bool : BoolOrStr → Bool
  | .bool b => b
  | .str s => pyLowerS (pyStripS s) ∈ (["1", "true", "yes", "on"] : List String)

/-! ## Profile store (`src/ax/config/manager.py`) -/

/-- State of the `.active_profile` marker file as seen by
`get_active_profile`: it may be missing, be a directory (so that
`Path.exists()` is true but `read_text()` raises), be unreadable
(`read_text()` raises e.g. `PermissionError`), or be readable with some
contents. -/
inductive MarkerState where
  | missing
  | directory
  | unreadable
  | readable (contents : String)
  deriving DecidableEq, Repr

/-- `Path.exists()` on the marker file. -/
def markerExists : MarkerState → Bool
  | .missing => false
  | _ => true

/-- `Path.read_text()` on the marker file: succeeds only when the marker is a
readable regular file. -/
def markerReadText : MarkerState → Except Unit String
  | .readable c => .ok c
  | _ => .error ()

/-- `ConfigManager.get_active_profile`: if the marker file exists, try to read
it and return the stripped text, falling back to `"default"` if the read
raises; if it does not exist, return `"default"`. -/
def getActiveProfile (m : MarkerState) : String :=
  if markerExists m then
    match markerReadText m with
    | .ok t => pyStripS t
    | .error _ => "default"
  else "default"

/-- On-disk state of the profile store: whether the top-level
`config.toml` (the `"default"` profile) exists, the stems of the `*.toml`
files in the profiles directory, and the active-profile marker. -/
structure Store where
  defaultExists : Bool
  profiles : List String
  marker : MarkerState
  deriving DecidableEq, Repr

/-- Insertion of a string into a lexicographically sorted list (used to model
Python's `sorted`). -/
def insertSorted (x : String) : List String → List String
  | [] => [x]
  | y :: ys => if x ≤ y then x :: y :: ys else y :: insertSorted x ys

/-- Python `sorted` on a list of strings. -/
def sortStrings : List String → List String
  | [] => []
  | x :: xs => insertSorted x (sortStrings xs)

/-- `ConfigManager.list_profiles`: `"default"` iff the default config file
exists, plus every profile-file stem, sorted. -/
def listProfiles (st : Store) : List String :=
  sortStrings ((if st.defaultExists then ["default"] else []) ++ st.profiles)

/-- `ConfigManager.delete_profile`: refuse to delete `"default"`; refuse to
delete the active profile; otherwise unlink the profile's file if present
(no error when absent). -/
def deleteProfile (st : Store) (profile : String) : Except String Store :=
  if profile = "default" then
    .error "Cannot delete the default profile"
  else if profile = getActiveProfile st.marker then
    .error ("Cannot delete active profile '" ++ profile ++
      "'. Switch to another profile first.")
  else
    .ok { st with profiles := st.profiles.erase profile }

/-! ## `AuthConfig.validate_api_key` (`src/ax/config/schema.py`, lines 21-37) -/

/-- `AuthConfig.validate_api_key`: reject an empty or whitespace-only key,
otherwise return the key stripped of surrounding whitespace. -/
def validateApiKey (v : String) : Except String String :=
  if v = "" ∨ pyStripS v = "" then .error "api_key cannot be empty"
  else .ok (pyStripS v)

/-! ## `RoutingConfig` (`src/ax/config/schema.py`, lines 40-142) -/

/-- The routing section, with the source's field defaults. -/
structure RoutingConfig where
  region : String := ""
  single_host : String := ""
  single_port : String := ""
  base_domain : String := ""
  api_host : String := "api.arize.com"
  api_scheme : String := "https"
  otlp_host : String := "otlp.arize.com"
  otlp_scheme : String := "https"
  flight_host : String := "flight.arize.com"
  flight_port : String := "443"
  flight_scheme : String := "grpc+tls"
  deriving DecidableEq, Repr

/-- `RoutingConfig.validate_region`: the empty string and `${...}` env-var
references pass; otherwise the value must belong to the SDK's region list
(`Region.list_regions()`, passed in as `validRegions`). -/
def validateRegion (validRegions : List String) (v : String) : Except String String :=
  if v = "" then .ok v
  else if ['$', '\x7b'].isPrefixOf v.data ∧ ['\x7d'].isSuffixOf v.data then .ok v
  else if v ∈ validRegions then .ok v
  else .error ("Invalid region: " ++ v)

/-- `has_region` / `has_single` / `has_base_domain` of
`validate_mutually_exclusive`, as a count of active routing strategies. -/
def RoutingConfig.activeCount (r : RoutingConfig) : Nat :=
  (if r.region ≠ "" then 1 else 0) +
  (if r.single_host ≠ "" ∨ r.single_port ≠ "" then 1 else 0) +
  (if r.base_domain ≠ "" then 1 else 0)

/-- The error text of `validate_mutually_exclusive`. -/
def mutuallyExclusiveMsg : String :=
  "Only one routing option allowed: region, single_host/port, or base_domain"

/-- `RoutingConfig.validate_mutually_exclusive`: fail when more than one of
the three routing strategies is active. -/
def RoutingConfig.validateMutuallyExclusive (r : RoutingConfig) :
    Except String RoutingConfig :=
  if r.activeCount > 1 then .error mutuallyExclusiveMsg else .ok r

/-- Full pydantic validation of a routing section: the `region` field
validator runs first, then the after-model validator. -/
def RoutingConfig.validate (validRegions : List String) (r : RoutingConfig) :
    Except String RoutingConfig :=
  match validateRegion validRegions r.region with
  | .error e => .error e
  | .ok _ => r.validateMutuallyExclusive

/-! ## Output dispatch (`src/ax/core/output.py`) -/

/-- The four registered formatters. -/
inductive FormatterKind where
  | table
  | json
  | csv
  | parquet
  deriving DecidableEq, Repr

/-- The error message of `get_formatter` for an unsupported format name. -/
def unsupportedFormatMsg (formatType : String) : String :=
  "Unsupported format: " ++ formatType ++
    ". Supported formats: table, json, csv, parquet"

/-- `get_formatter`: look the lowercased format name up in the registry,
failing with a message that enumerates the valid names. -/
def getFormatter (formatType : String) : Except String FormatterKind :=
  if pyLowerS formatType = "table" then .ok .table
  else if pyLowerS formatType = "json" then .ok .json
  else if pyLowerS formatType = "csv" then .ok .csv
  else if pyLowerS formatType = "parquet" then .ok .parquet
  else .error (unsupportedFormatMsg formatType)

/-- The destination guards each `format` method runs before doing any work:
`TableFormatter.format` rejects a non-empty output file,
`ParquetFormatter.format` requires one. -/
def formatterGuard (k : FormatterKind) (outputFile : String) : Except String Unit :=
  match k with
  | .table =>
      if outputFile ≠ "" then
        .error "Table format can only be output to terminal (stdout)"
      else .ok ()
  | .parquet =>
      if outputFile = "" then
        .error ("Parquet format requires an output file. " ++
          "Use --output to specify a file path.")
      else .ok ()
  | _ => .ok ()

/-- `output_data` up to the point where a formatter would start rendering:
select the formatter, then run its destination guard. -/
def dispatchOutput (formatType outputFile : String) : Except String FormatterKind :=
  match getFormatter formatType with
  | .error e => .error e
  | .ok k =>
      match formatterGuard k outputFile with
      | .error e => .error e
      | .ok _ => .ok k



/-- Decidable equality for `Except`, so that concrete runs of the embedded
operations can be checked by `decide`. -/
instance {ε α : Type} [DecidableEq ε] [DecidableEq α] : DecidableEq (Except ε α) := fun a b =>
  match a, b with
  | .ok x, .ok y =>
      if h : x = y then .isTrue (by rw [h])
      else .isFalse (by intro hc; cases hc; exact h rfl)
  | .error x, .error y =>
      if h : x = y then .isTrue (by rw [h])
      else .isFalse (by intro hc; cases hc; exact h rfl)
  | .ok _, .error _ => .isFalse (by intro hc; cases hc)
  | .error _, .ok _ => .isFalse (by intro hc; cases hc)

/-! ## Helper lemmas about `pyStrip` -/

/-- `pyStrip` is left-strip followed by right-strip. -/
theorem pyStrip_eq_rdropWhile (s : Str) :
    pyStrip s = List.rdropWhile isPySpace (s.dropWhile isPySpace) := rfl

/-- A list unchanged by a left strip is still unchanged by a left strip after
a right strip. -/
theorem dropWhile_rdropWhile_of_dropWhile_eq {p : Char → Bool} {u : Str}
    (h : u.dropWhile p = u) :
    (List.rdropWhile p u).dropWhile p = List.rdropWhile p u := by
  rcases he : List.rdropWhile p u with _ | ⟨a, l⟩
  · simp
  · obtain ⟨t, ht⟩ := List.rdropWhile_prefix p u
    rw [he] at ht
    have hu : u = a :: (l ++ t) := by rw [← ht]; rfl
    have ha : p a = false := by
      by_contra hpa
      rw [Bool.not_eq_false] at hpa
      have hdw := h
      rw [hu, List.dropWhile_cons, if_pos hpa] at hdw
      have hlen := congrArg List.length hdw
      have hle := (List.dropWhile_suffix (l := l ++ t) p).length_le
      simp only [List.length_cons] at hlen
      omega
    rw [List.dropWhile_cons, ha]
    simp

/-- `str.strip()` is idempotent. -/
theorem pyStrip_idem (s : Str) : pyStrip (pyStrip s) = pyStrip s := by
  rw [pyStrip_eq_rdropWhile, pyStrip_eq_rdropWhile s,
    dropWhile_rdropWhile_of_dropWhile_eq (List.dropWhile_idempotent isPySpace s),
    List.rdropWhile_idempotent]

/-- `str.strip()` is idempotent (`String` version). -/
theorem pyStripS_idem (s : String) : pyStripS (pyStripS s) = pyStripS s := by
  simp [pyStripS, pyStrip_idem]

/-- A list none of whose characters is whitespace is unchanged by
`str.strip()`. -/
theorem pyStrip_eq_self_of_no_space {s : Str}
    (h : ∀ c ∈ s, isPySpace c = false) : pyStrip s = s := by
  have h1 : s.dropWhile isPySpace = s := by
    cases s with
    | nil => rfl
    | cons a l =>
        rw [List.dropWhile_cons, if_neg]
        simp [h a (List.mem_cons_self a l)]
  rw [pyStrip_eq_rdropWhile, h1, List.rdropWhile_eq_self_iff]
  intro hl
  simp [h _ (List.getLast_mem hl)]

/-! ## Claim theorems: profile store and coercion -/

/-- C9: when the active-profile marker file is readable, `get_active_profile`
returns its whitespace-trimmed contents verbatim (no existence check of a
profile of that name is involved); in particular an empty or whitespace-only
marker yields the empty string rather than `"default"`. -/
theorem C9_active_profile_trimmed_verbatim :
    (∀ c, getActiveProfile (.readable c) = pyStripS c) ∧
    getActiveProfile (.readable "") = "" ∧
    getActiveProfile (.readable " \t\n ") = "" ∧
    getActiveProfile (.readable "  myprofile") ≠ "default" := by
  refine ⟨fun c => rfl, by decide, by decide, by decide⟩

/-- C4 counterexample: the claim says a readable marker makes
`get_active_profile` return its contents; for the readable contents
`" x "` the code instead returns the trimmed string `"x"`. -/
theorem C4_counterexample :
    getActiveProfile (.readable " x ") = "x" ∧ ("x" : String) ≠ " x " := by
  decide

/-- C4 (amended): `get_active_profile` never raises: on a missing, unreadable
or directory marker it returns `"default"` instead of propagating the read
failure, and when the marker is readable it returns its whitespace-trimmed
contents. -/
theorem C4_active_profile_fallback :
    getActiveProfile .missing = "default" ∧
    getActiveProfile .directory = "default" ∧
    getActiveProfile .unreadable = "default" ∧
    (∀ c, getActiveProfile (.readable c) = pyStripS c) := by
  refine ⟨rfl, rfl, rfl, fun c => rfl⟩

/-- Membership in `insertSorted` is membership in the underlying list. -/
theorem mem_insertSorted {x y : String} {l : List String} :
    y ∈ insertSorted x l ↔ y = x ∨ y ∈ l := by
  induction l with
  | nil => simp [insertSorted]
  | cons a l ih =>
      simp only [insertSorted]
      split
      · simp [or_comm, or_assoc, List.mem_cons]
      · simp only [List.mem_cons, ih]
        tauto

/-- Membership in `sortStrings` is membership in the input. -/
theorem mem_sortStrings {y : String} {l : List String} :
    y ∈ sortStrings l ↔ y ∈ l := by
  induction l with
  | nil => simp [sortStrings]
  | cons a l ih => simp [sortStrings, mem_insertSorted, ih]

/-- C5: `delete_profile` refuses to delete `"default"`; refuses to delete the
currently active profile; otherwise it succeeds, removing the profile's file
when present and doing nothing when it is already absent, after which the
profile no longer appears in `list_profiles`. -/
theorem C5_delete_profile (st : Store) (name : String) :
    (name = "default" →
      deleteProfile st name = .error "Cannot delete the default profile") ∧
    (name = getActiveProfile st.marker →
      ∃ e, deleteProfile st name = .error e) ∧
    (name ≠ "default" → name ≠ getActiveProfile st.marker →
      deleteProfile st name = .ok { st with profiles := st.profiles.erase name } ∧
      (name ∉ st.profiles → deleteProfile st name = .ok st) ∧
      (st.profiles.Nodup →
        name ∉ listProfiles { st with profiles := st.profiles.erase name })) := by
  refine ⟨fun h => ?_, fun h => ?_, fun h1 h2 => ⟨?_, fun habs => ?_, fun hnd => ?_⟩⟩
  · simp [deleteProfile, h]
  · by_cases hd : name = "default"
    · exact ⟨"Cannot delete the default profile", by simp [deleteProfile, hd]⟩
    · refine ⟨"Cannot delete active profile '" ++ name ++
        "'. Switch to another profile first.", ?_⟩
      rw [deleteProfile, if_neg hd, if_pos h]
  · simp [deleteProfile, h1, h2]
  · simp [deleteProfile, h1, h2, List.erase_of_not_mem habs]
  · simp only [listProfiles, mem_sortStrings, List.mem_append]
    rintro (hmem | hmem)
    · rcases hde : st.defaultExists with _ | _ <;> simp_all
    · exact ((hnd.mem_erase_iff).mp hmem).1 rfl

/-- C5 witness: deleting the existing, inactive, non-default profile `"b"`
from a store whose active profile is `"a"` succeeds, removes it, and it no
longer appears in `list_profiles`. -/
theorem C5_delete_profile_witness :
    deleteProfile ⟨true, ["a", "b"], .readable "a"⟩ "b" =
      .ok ⟨true, ["a"], .readable "a"⟩ ∧
    "b" ∉ listProfiles ⟨true, ["a"], .readable "a"⟩ := by
  have h := (C5_delete_profile ⟨true, ["a", "b"], .readable "a"⟩ "b").2.2
    (by decide) (by decide)
  constructor
  · rw [h.1]
    decide
  · have h3 := h.2.2 (by decide)
    simpa using h3

/-- C8 counterexample: the string `" true "` is not a letter-case variant of
`"true"`, `"1"`, `"yes"` or `"on"` (its lowercasing is none of them), so the
claim maps it to `false`; the code coerces it to `true` because `_to_bool`
strips surrounding whitespace first. -/
theorem C8_counterexample :
    to_bool (.str " true ") = true ∧
    pyLowerS " true " ∉ (["true", "1", "yes", "on"] : List String) := by
  constructor
  · decide
  · decide

/-- C8 (amended): `_to_bool` returns boolean inputs unchanged and coerces a
string to `true` exactly when its whitespace-trimmed, lowercased form is one
of `"1"`, `"true"`, `"yes"`, `"on"`; in particular every letter-case variant
of those four strings coerces to `true`, while `"false"`, `"0"`, `"no"`,
`"off"` and unrecognized strings coerce to `false`. -/
theorem C8_to_bool_coercion :
    (∀ b, to_bool (.bool b) = b) ∧
    (∀ s, to_bool (.str s) = true ↔
      pyLowerS (pyStripS s) ∈ (["1", "true", "yes", "on"] : List String)) ∧
    (∀ s, pyLowerS s ∈ (["1", "true", "yes", "on"] : List String) →
      to_bool (.str s) = true) ∧
    to_bool (.str "TRUE") = true ∧ to_bool (.str "Yes") = true ∧
    to_bool (.str "oN") = true ∧ to_bool (.str "1") = true ∧
    to_bool (.str "false") = false ∧ to_bool (.str "0") = false ∧
    to_bool (.str "no") = false ∧ to_bool (.str "off") = false ∧
    to_bool (.str "FALSE") = false ∧ to_bool (.str "banana") = false := by
  refine ⟨fun b => rfl, fun s => ?_, fun s h => ?_, by decide, by decide,
    by decide, by decide, by decide, by decide, by decide, by decide,
    by decide, by decide⟩
  · simp [to_bool]
  · have hnsp : ∀ c ∈ s.data, isPySpace c = false := by
      intro c hc
      by_contra hsp
      rw [Bool.not_eq_false] at hsp
      have hceq : pyLowerChar c = c := by
        have hdisj : c = ' ' ∨ c = '\t' ∨ c = '\n' ∨ c = '\r' ∨
            c = '\x0b' ∨ c = '\x0c' := by
          simpa [isPySpace, or_assoc] using hsp
        rcases hdisj with rfl | rfl | rfl | rfl | rfl | rfl <;> decide
      have hmem : c ∈ (pyLowerS s).data := by
        rw [← hceq]
        exact List.mem_map_of_mem _ hc
      simp only [List.mem_cons, List.not_mem_nil, or_false] at h
      have hsp' : isPySpace c = false := by
        rcases h with h | h | h | h
        · rw [h] at hmem
          exact (by decide : ∀ x ∈ ("1" : String).data, isPySpace x = false) c hmem
        · rw [h] at hmem
          exact (by decide : ∀ x ∈ ("true" : String).data, isPySpace x = false) c hmem
        · rw [h] at hmem
          exact (by decide : ∀ x ∈ ("yes" : String).data, isPySpace x = false) c hmem
        · rw [h] at hmem
          exact (by decide : ∀ x ∈ ("on" : String).data, isPySpace x = false) c hmem
      rw [hsp'] at hsp
      exact Bool.noConfusion hsp
    have hstr : pyStripS s = s := by
      simp only [pyStripS]
      rw [pyStrip_eq_self_of_no_space hnsp]
    simp [to_bool, hstr, h]

/-- C10: `validate_api_key` rejects exactly the empty and whitespace-only
keys, and any accepted key is the input stripped of surrounding whitespace —
hence every api_key the validator produces has no leading or trailing
whitespace (it is a fixed point of stripping). -/
theorem C10_api_key_invariant (v : String) :
    (validateApiKey v = .error "api_key cannot be empty" ↔ pyStripS v = "") ∧
    (∀ k, validateApiKey v = .ok k → k = pyStripS v ∧ pyStripS k = k) := by
  constructor
  · constructor
    · intro h
      by_contra hne
      have hv : ¬(v = "" ∨ pyStripS v = "") := by
        rintro (rfl | h1)
        · exact hne rfl
        · exact hne h1
      rw [validateApiKey, if_neg hv] at h
      exact Except.noConfusion h
    · intro h
      rw [validateApiKey, if_pos (Or.inr h)]
  · intro k hk
    have hcase : ¬(v = "" ∨ pyStripS v = "") := by
      intro hor
      rw [validateApiKey, if_pos hor] at hk
      exact Except.noConfusion hk
    rw [validateApiKey, if_neg hcase] at hk
    cases hk
    exact ⟨rfl, pyStripS_idem v⟩

/-- C10 witness: the key `"  my-key \t"` is accepted and stored as
`"my-key"`, which is strip-invariant. -/
theorem C10_api_key_invariant_witness :
    validateApiKey "  my-key \t" = .ok "my-key" ∧
    pyStripS "my-key" = "my-key" := by
  have hok : validateApiKey "  my-key \t" = .ok "my-key" := by decide
  have h2 := (C10_api_key_invariant "  my-key \t").2 "my-key" hok
  refine ⟨hok, ?_⟩
  exact h2.2

/-- C2: `validate_mutually_exclusive` fails with the mutually-exclusive
routing options error exactly when more than one of `has_region`,
`has_single`, `has_base_domain` is true, whichever the combination; the
spec's three examples follow, with only `single_host` and `single_port` set
passing full routing validation (for any valid-region list). -/
theorem C2_mutually_exclusive_routing (r : RoutingConfig) :
    (r.validateMutuallyExclusive = .error mutuallyExclusiveMsg ↔
      ((r.region ≠ "" ∧ (r.single_host ≠ "" ∨ r.single_port ≠ "")) ∨
       (r.region ≠ "" ∧ r.base_domain ≠ "") ∨
       ((r.single_host ≠ "" ∨ r.single_port ≠ "") ∧ r.base_domain ≠ ""))) ∧
    ({ region := "us-east-1b", single_host := "x.com" } :
        RoutingConfig).validateMutuallyExclusive = .error mutuallyExclusiveMsg ∧
    ({ region := "us-east-1b", base_domain := "pc.arize.com" } :
        RoutingConfig).validateMutuallyExclusive = .error mutuallyExclusiveMsg ∧
    (∀ validRegions,
      RoutingConfig.validate validRegions
        { single_host := "x.com", single_port := "443" } =
      .ok { single_host := "x.com", single_port := "443" }) := by
  refine ⟨?_, by decide, by decide, fun validRegions => rfl⟩
  rw [RoutingConfig.validateMutuallyExclusive]
  unfold RoutingConfig.activeCount
  by_cases h1 : r.region = "" <;> by_cases h2 : r.single_host = "" <;>
    by_cases h3 : r.single_port = "" <;> by_cases h4 : r.base_domain = "" <;>
    simp [h1, h2, h3, h4]

/-- C7 counterexample: `"TABLE"` is a format name outside
`{table, json, csv, parquet}`, yet `get_formatter` accepts it (it lowercases
the name before the registry lookup), so selection does not fail as the
claim requires. -/
theorem C7_counterexample :
    getFormatter "TABLE" = .ok .table ∧
    ("TABLE" : String) ∉ (["table", "json", "csv", "parquet"] : List String) := by
  constructor
  · decide
  · decide

/-- C7 (amended): output dispatch fails for the table format with any
non-empty destination file, for the parquet format with no destination file,
and for any format name whose lowercase form is outside
`{table, json, csv, parquet}` — with an error enumerating the valid names.
The in-range names with valid destinations dispatch without error. -/
theorem C7_output_dispatch :
    (∀ f, f ≠ "" → dispatchOutput "table" f =
      .error "Table format can only be output to terminal (stdout)") ∧
    (dispatchOutput "parquet" "" =
      .error ("Parquet format requires an output file. " ++
        "Use --output to specify a file path.")) ∧
    (∀ ft f, pyLowerS ft ∉ (["table", "json", "csv", "parquet"] : List String) →
      dispatchOutput ft f = .error (unsupportedFormatMsg ft)) ∧
    dispatchOutput "table" "" = .ok .table ∧
    dispatchOutput "json" "" = .ok .json ∧
    dispatchOutput "json" "out.json" = .ok .json ∧
    dispatchOutput "csv" "" = .ok .csv ∧
    dispatchOutput "csv" "out.csv" = .ok .csv ∧
    dispatchOutput "parquet" "out.parquet" = .ok .parquet := by
  refine ⟨fun f hf => ?_, by decide, fun ft f hft => ?_, by decide, by decide,
    by decide, by decide, by decide, by decide⟩
  · have hfmt : getFormatter "table" = .ok .table := by decide
    rw [dispatchOutput, hfmt]
    simp [formatterGuard, hf]
  · simp only [List.mem_cons, List.not_mem_nil, or_false, not_or] at hft
    obtain ⟨n1, n2, n3, n4⟩ := hft
    rw [dispatchOutput, getFormatter, if_neg n1, if_neg n2, if_neg n3, if_neg n4]

/-! ## gRPC transport-error classification
(`src/ax/core/error_formatter.py`, lines 16-34 and 97-149) -/

/-- The fixed `grpc_to_http` table; `dict.get` with the `(500, "Server
Error")` default used by `parse_grpc_error` (the sentinel `-1` for a missing
`grpc_status` falls through to the default). -/
def grpc_to_http (g : Int) : Nat × String :=
  if g = 0 then (200, "OK")
  else if g = 1 then (499, "Client Closed Request")
  else if g = 2 then (500, "Internal Server Error")
  else if g = 3 then (400, "Invalid Argument")
  else if g = 4 then (504, "Gateway Timeout")
  else if g = 5 then (404, "Not Found")
  else if g = 6 then (409, "Conflict")
  else if g = 7 then (403, "Permission Denied")
  else if g = 8 then (429, "Too Many Requests")
  else if g = 9 then (412, "Failed Precondition")
  else if g = 10 then (409, "Conflict")
  else if g = 11 then (400, "Out of Range")
  else if g = 12 then (501, "Not Implemented")
  else if g = 13 then (500, "Internal Server Error")
  else if g = 14 then (503, "Service Unavailable")
  else if g = 15 then (500, "Internal Server Error")
  else if g = 16 then (401, "Unauthenticated")
  else (500, "Server Error")

/-- Tail of the first message regex after the optional period: `\s*gRPC`
(the whitespace star is effectively greedy, since `g` is not whitespace). -/
def grTail (r : Str) : Bool :=
  "gRPC".data.isPrefixOf (r.dropWhile isPySpace)

/-- Tail of the first message regex: `\.?\s*gRPC`, with the greedy optional
period tried first and the empty alternative as backtracking. -/
def dotTail : Str → Bool
  | '.' :: r2 => grTail r2 || grTail ('.' :: r2)
  | r => grTail r

/-- The group `([^.]+)` of the first message regex followed by `\.?\s*gRPC`:
candidate group lengths are tried greedily (longest first) over the maximal
period-free run. -/
def groupSearch (t : Str) : Option Str :=
  let runLen := (t.takeWhile (fun c => c ≠ '.')).length
  (List.range runLen).findSome? fun i =>
    let glen := runLen - i
    if dotTail (t.drop glen) then some (t.take glen) else none

/-- Matching `\s*([^.]+)\.?\s*gRPC` at the position right after
`with message:`, trying the greedy whitespace lengths longest first. -/
def msg1At (rest : Str) : Option Str :=
  let wmax := (rest.takeWhile isPySpace).length
  (List.range (wmax + 1)).findSome? fun i => groupSearch (rest.drop (wmax - i))

/-- `re.search` of `with message:\s*([^.]+)\.?\s*gRPC`: scan left to right
for a position where the full pattern matches, returning group 1. -/
def searchMsg1 : Str → Option Str
  | [] => none
  | c :: rest =>
      match
        (if "with message:".data.isPrefixOf (c :: rest) then
          msg1At (List.drop 13 (c :: rest)) else none) with
      | some g => some g
      | none => searchMsg1 rest

/-- Matching `grpc_message:"([^"]+)"` at the start of `s`. -/
def msg2At (s : Str) : Option Str :=
  if ("grpc_message:" ++ "\"").data.isPrefixOf s then
    let t := List.drop 14 s
    let run := t.takeWhile (fun c => c ≠ '"')
    match t.drop run.length with
    | '"' :: _ => if run.isEmpty then none else some run
    | _ => none
  else none

/-- `re.search` of `grpc_message:"([^"]+)"`. -/
def searchMsg2 : Str → Option Str
  | [] => none
  | c :: rest =>
      match msg2At (c :: rest) with
      | some g => some g
      | none => searchMsg2 rest

/-- Matching `grpc_status:(\d+)` at the start of `s`: the greedy digit run
after the literal, as a number. -/
def statusAt (s : Str) : Option Nat :=
  if "grpc_status:".data.isPrefixOf s then
    let ds := (List.drop 12 s).takeWhile Char.isDigit
    if ds.isEmpty then none
    else some (ds.foldl (fun a c => a * 10 + (c.toNat - 48)) 0)
  else none

/-- `re.search` of `grpc_status:(\d+)`. -/
def searchStatus : Str → Option Nat
  | [] => none
  | c :: rest =>
      match statusAt (c :: rest) with
      | some n => some n
      | none => searchStatus rest

/-- The fields of `ParsedError` that `parse_grpc_error` populates (`title`,
`type`, `instance` and `headers` stay `None` on this code path and are
omitted). -/
structure ParsedError where
  status : Nat
  reason : String
  detail : Str
  body : Str
  deriving DecidableEq, Repr

/-- The message extraction of `parse_grpc_error`: the `with message:` regex
first, the `grpc_message:"..."` regex as fallback. -/
def extractMessage (t : Str) : Option Str :=
  match searchMsg1 t with
  | some g => some g
  | none => searchMsg2 t

/-- The `grpc_status` code of the error text, `-1` when absent. -/
def grpcStatusOf (t : Str) : Int :=
  match searchStatus t with
  | some n => (n : Int)
  | none => -1

/-- `parse_grpc_error` on the text of the `RuntimeError` found in the
exception chain: if a message can be extracted, classify via the gRPC→HTTP
table and keep the raw text as body, truncating with `"..."` unless the text
is shorter than 500 characters. -/
def parse_grpc_error (t : Str) : Option ParsedError :=
  match extractMessage t with
  | none => none
  | some msg =>
      let hr := grpc_to_http (grpcStatusOf t)
      some { status := hr.1, reason := hr.2, detail := pyStrip msg,
             body := if t.length < 500 then t else t.take 500 ++ "...".data }

/-- A transport-error text of length exactly 500 that classifies. -/
def c6text : Str := "grpc_message:\"m\"".data ++ List.replicate 484 'x'

/-- A representative transport-error text carrying `grpc_status:5`. -/
def c6example : Str :=
  ("Flight returned not found error, with message: dataset not found. " ++
   "gRPC client debug context: \x7bgrpc_status:5, " ++
   "grpc_message:\"dataset not found\"\x7d").data

set_option maxRecDepth 40000 in
/-- C6 counterexample: for an error text of length exactly 500 — not longer
than 500 — the claim says the body is the raw text, but the code appends the
ellipsis marker (it truncates whenever the length is at least 500). -/
theorem C6_counterexample :
    c6text.length = 500 ∧
    parse_grpc_error c6text =
      some { status := 500, reason := "Server Error", detail := ['m'],
             body := c6text ++ "...".data } ∧
    c6text ++ "...".data ≠ c6text := by
  refine ⟨by decide, by decide, by decide⟩

set_option maxRecDepth 40000 in
set_option maxHeartbeats 1600000 in
/-- C6 (amended): when `parse_grpc_error` extracts a message, the
`grpc_status` code populates status and reason through the fixed gRPC→HTTP
table (with any other or missing code mapping to 500 "Server Error"), the
body is the raw error text — truncated to 500 characters with an ellipsis
marker whenever the text is 500 characters or longer — and in particular a
text containing `grpc_status:5` classifies to 404 "Not Found". -/
theorem C6_grpc_classification :
    grpc_to_http 0 = (200, "OK") ∧
    grpc_to_http 1 = (499, "Client Closed Request") ∧
    grpc_to_http 2 = (500, "Internal Server Error") ∧
    grpc_to_http 3 = (400, "Invalid Argument") ∧
    grpc_to_http 4 = (504, "Gateway Timeout") ∧
    grpc_to_http 5 = (404, "Not Found") ∧
    grpc_to_http 6 = (409, "Conflict") ∧
    grpc_to_http 7 = (403, "Permission Denied") ∧
    grpc_to_http 8 = (429, "Too Many Requests") ∧
    grpc_to_http 9 = (412, "Failed Precondition") ∧
    grpc_to_http 10 = (409, "Conflict") ∧
    grpc_to_http 11 = (400, "Out of Range") ∧
    grpc_to_http 12 = (501, "Not Implemented") ∧
    grpc_to_http 13 = (500, "Internal Server Error") ∧
    grpc_to_http 14 = (503, "Service Unavailable") ∧
    grpc_to_http 15 = (500, "Internal Server Error") ∧
    grpc_to_http 16 = (401, "Unauthenticated") ∧
    (∀ g : Int, g < 0 ∨ 16 < g → grpc_to_http g = (500, "Server Error")) ∧
    (∀ t e, parse_grpc_error t = some e →
      (e.status, e.reason) = grpc_to_http (grpcStatusOf t) ∧
      e.body = if t.length < 500 then t else t.take 500 ++ "...".data) ∧
    parse_grpc_error c6example =
      some { status := 404, reason := "Not Found",
             detail := "dataset not found".data,
             body := c6example } := by
  refine ⟨rfl, rfl, rfl, rfl, rfl, rfl, rfl, rfl, rfl, rfl, rfl, rfl, rfl,
    rfl, rfl, rfl, rfl, fun g hg => ?_, fun t e he => ?_, by decide⟩
  · rw [grpc_to_http, if_neg (by omega : ¬g = 0), if_neg (by omega : ¬g = 1),
      if_neg (by omega : ¬g = 2), if_neg (by omega : ¬g = 3),
      if_neg (by omega : ¬g = 4), if_neg (by omega : ¬g = 5),
      if_neg (by omega : ¬g = 6), if_neg (by omega : ¬g = 7),
      if_neg (by omega : ¬g = 8), if_neg (by omega : ¬g = 9),
      if_neg (by omega : ¬g = 10), if_neg (by omega : ¬g = 11),
      if_neg (by omega : ¬g = 12), if_neg (by omega : ¬g = 13),
      if_neg (by omega : ¬g = 14), if_neg (by omega : ¬g = 15),
      if_neg (by omega : ¬g = 16)]
  · rw [parse_grpc_error] at he
    rcases hm : extractMessage t with _ | msg
    · rw [hm] at he
      exact Option.noConfusion he
    · rw [hm] at he
      cases he
      exact ⟨rfl, rfl⟩

/-! ## Environment-variable expansion
(`src/ax/config/manager.py`, lines 281-338) -/

/-- The process environment (`os.environ`): variable name to value; an
empty-string value still counts as set. -/
def Env := Str → Option Str

/-- Matching the regex `\$\{([^}:]+)(?::([^}]*))?\}` at the start of the
input: the name (at least one character, none of which is `}` or `:`), the
optional default (characters other than `}`; present exactly when the `:`
clause is), and the input after the closing brace. -/
def tryRef : Str → Option (Str × Option Str × Str)
  | '$' :: '{' :: rest =>
      let name := rest.takeWhile fun c => !(c == '}' || c == ':')
      if name.isEmpty then none
      else
        match rest.dropWhile fun c => !(c == '}' || c == ':') with
        | '}' :: after => some (name, none, after)
        | ':' :: r2 =>
            (match r2.dropWhile fun c => !(c == '}') with
            | '}' :: after =>
                some (name, some (r2.takeWhile fun c => !(c == '}')), after)
            | _ => none)
        | _ => none
  | _ => none

/-- The message of the `ValueError` raised for a reference to an unset
variable with no default. -/
def envErrMsg (name : Str) : Str :=
  "Environment variable ".data ++ name ++
    " is not set and no default provided".data

/-- The left-to-right scan of `re.sub`: at each position, replace a matching
reference (environment value if set, else the default if present, else fail)
and continue after it, otherwise emit the character and move on.  The fuel
argument (instantiated with the input length, which bounds the number of
steps) makes the recursion structural. -/
def expandAux (env : Env) : Nat → Str → Except Str Str
  | _, [] => .ok []
  | 0, s => .ok s
  | fuel + 1, c :: rest =>
      match tryRef (c :: rest) with
      | some (name, dflt, after) =>
          (match env name with
          | some v => (expandAux env fuel after).map fun t => v ++ t
          | none =>
              match dflt with
              | some d => (expandAux env fuel after).map fun t => d ++ t
              | none => .error (envErrMsg name))
      | none => (expandAux env fuel rest).map fun t => c :: t

/-- `_expand_env_var`: expand every `${NAME}` / `${NAME:DEFAULT}` reference
in the string, failing on a reference to an unset variable with no
default. -/
def expand_env_var (env : Env) (s : Str) : Except Str Str :=
  expandAux env s.length s

/-- Whether the string contains a reference pattern anywhere. -/
def hasRef (s : Str) : Bool :=
  s.tails.any fun t => (tryRef t).isSome

/-- The literal text of a `${NAME}` or `${NAME:DEFAULT}` reference. -/
def refStr (name : Str) (dflt : Option Str) : Str :=
  '$' :: '{' ::
    (name ++ (match dflt with | none => [] | some d => ':' :: d) ++ ['}'])

/-! ## TOML-like configuration trees (`tomllib` dictionaries) -/

mutual
/-- A parsed configuration value: the scalar types the config uses, or a
nested table. -/
inductive TomlVal where
  | str (s : String)
  | int (n : Int)
  | bool (b : Bool)
  | table (t : TomlTable)

/-- A parsed configuration table: an ordered association of keys to
values (a Python dict in the source). -/
inductive TomlTable where
  | nil
  | cons (key : String) (val : TomlVal) (rest : TomlTable)
end

mutual
/-- `_expand_config_dict` on a single dictionary value: strings are
expanded, nested dictionaries recursed into, every other value passes
through unchanged. -/
def expand_config_value (env : Env) : TomlVal → Except Str TomlVal
  | .str s =>
      (match expand_env_var env s.data with
      | .ok cs => .ok (.str ⟨cs⟩)
      | .error e => .error e)
  | .table t =>
      (match expand_config_table env t with
      | .ok t' => .ok (.table t')
      | .error e => .error e)
  | .int n => .ok (.int n)
  | .bool b => .ok (.bool b)

/-- `_expand_config_dict`: walk the dictionary in order, expanding each
value; the first failing reference aborts the walk. -/
def expand_config_table (env : Env) : TomlTable → Except Str TomlTable
  | .nil => .ok .nil
  | .cons k v rest =>
      (match expand_config_value env v with
      | .ok v' =>
          (match expand_config_table env rest with
          | .ok rest' => .ok (.cons k v' rest')
          | .error e => .error e)
      | .error e => .error e)
end

/-! ## Lemmas about the expansion scanner -/

/-- `takeWhile` stops exactly at the first failing character after a run of
passing ones. -/
theorem takeWhile_append_cons {p : Char → Bool} {l₁ t : Str} {b : Char}
    (h1 : ∀ c ∈ l₁, p c = true) (hb : p b = false) :
    (l₁ ++ b :: t).takeWhile p = l₁ := by
  induction l₁ with
  | nil => simp [List.takeWhile_cons, hb]
  | cons a l ih =>
      simp only [List.cons_append, List.takeWhile_cons,
        h1 a (List.mem_cons_self a l), if_true]
      rw [ih fun c hc => h1 c (List.mem_cons_of_mem a hc)]

/-- `dropWhile` drops exactly the run of passing characters. -/
theorem dropWhile_append_cons {p : Char → Bool} {l₁ t : Str} {b : Char}
    (h1 : ∀ c ∈ l₁, p c = true) (hb : p b = false) :
    (l₁ ++ b :: t).dropWhile p = b :: t := by
  induction l₁ with
  | nil => simp [List.dropWhile_cons, hb]
  | cons a l ih =>
      simp only [List.cons_append, List.dropWhile_cons,
        h1 a (List.mem_cons_self a l), if_true]
      exact ih fun c hc => h1 c (List.mem_cons_of_mem a hc)
/-- A successful `tryRef` consumes at least the four characters `${`, one
name character and the closing brace. -/
theorem tryRef_after_length {s name after : Str} {dflt : Option Str}
    (h : tryRef s = some (name, dflt, after)) :
    after.length + 3 ≤ s.length := by
  rw [tryRef.eq_def] at h
  split at h
  case h_2 => exact absurd h (by simp)
  case h_1 rest =>
    simp only [] at h
    split at h
    · exact absurd h (by simp)
    · rename_i hne
      have hsplit := List.takeWhile_append_dropWhile
        (p := fun c => !(c == '}' || c == ':')) (l := rest)
      split at h
      case h_1 after1 heq =>
        injection h with h
        obtain ⟨rfl, h2⟩ := Prod.mk.inj h
        obtain ⟨rfl, rfl⟩ := Prod.mk.inj h2
        have hlen := congrArg List.length hsplit
        rw [heq] at hlen
        have hne' : 1 ≤ (rest.takeWhile fun c => !(c == '}' || c == ':')).length := by
          cases hq : rest.takeWhile (fun c => !(c == '}' || c == ':')) with
          | nil => rw [hq] at hne; simp at hne
          | cons _ _ => simp [hq]
        simp only [List.length_append, List.length_cons] at hlen ⊢
        omega
      case h_2 r2 heq =>
        split at h
        case h_1 after1 heq2 =>
          injection h with h
          obtain ⟨rfl, h2⟩ := Prod.mk.inj h
          obtain ⟨rfl, rfl⟩ := Prod.mk.inj h2
          have hlen := congrArg List.length hsplit
          rw [heq] at hlen
          have hsplit2 := List.takeWhile_append_dropWhile
            (p := fun c => !(c == '}')) (l := r2)
          have hlen2 := congrArg List.length hsplit2
          rw [heq2] at hlen2
          simp only [List.length_append, List.length_cons] at hlen hlen2 ⊢
          omega
        case h_2 => exact absurd h (by simp)
      case h_3 => exact absurd h (by simp)


/-- Any fuel at least the input length gives the same result, so
`expand_env_var`'s choice of fuel is canonical. -/
theorem expandAux_fuel (env : Env) :
    ∀ (fuel : Nat) (s : Str), s.length ≤ fuel →
      expandAux env fuel s = expandAux env s.length s := by
  intro fuel
  induction fuel using Nat.strong_induction_on with
  | _ fuel ih =>
      intro s hs
      cases s with
      | nil => cases fuel <;> rfl
      | cons c rest =>
          cases fuel with
          | zero => simp at hs
          | succ f =>
              have hrest : rest.length ≤ f := by
                simpa using hs
              cases htr : tryRef (c :: rest) with
              | none =>
                  simp only [List.length_cons, expandAux, htr]
                  rw [ih f (Nat.lt_succ_self f) rest hrest]
              | some nda =>
                  obtain ⟨name, dflt, after⟩ := nda
                  have hal := tryRef_after_length htr
                  simp only [List.length_cons] at hal
                  simp only [List.length_cons, expandAux, htr]
                  have h1 : expandAux env f after = expandAux env after.length after :=
                    ih f (Nat.lt_succ_self f) after (by omega)
                  have h2 : expandAux env rest.length after =
                      expandAux env after.length after :=
                    ih rest.length (by omega) after (by omega)
                  rw [h1, h2]

/-- Scanner step: a position at which no reference matches emits the
character unchanged. -/
theorem expand_cons_lit (env : Env) {c : Char} {s : Str}
    (h : tryRef (c :: s) = none) :
    expand_env_var env (c :: s) = (expand_env_var env s).map fun t => c :: t := by
  rw [expand_env_var, expand_env_var]
  simp only [List.length_cons, expandAux, h]

/-- Scanner step: a reference to a set variable is replaced by its value and
scanning continues after the reference. -/
theorem expand_cons_ref_set (env : Env) {c : Char} {s name after v : Str}
    {dflt : Option Str} (h : tryRef (c :: s) = some (name, dflt, after))
    (henv : env name = some v) :
    expand_env_var env (c :: s) = (expand_env_var env after).map fun t => v ++ t := by
  have hal := tryRef_after_length h
  simp only [List.length_cons] at hal
  rw [expand_env_var]
  simp only [List.length_cons, expandAux, h, henv]
  rw [expandAux_fuel env s.length after (by omega)]
  rfl

/-- Scanner step: a reference with a default to an unset variable is
replaced by the default. -/
theorem expand_cons_ref_dflt (env : Env) {c : Char} {s name after d : Str}
    (h : tryRef (c :: s) = some (name, some d, after))
    (henv : env name = none) :
    expand_env_var env (c :: s) = (expand_env_var env after).map fun t => d ++ t := by
  have hal := tryRef_after_length h
  simp only [List.length_cons] at hal
  rw [expand_env_var]
  simp only [List.length_cons, expandAux, h, henv]
  rw [expandAux_fuel env s.length after (by omega)]
  rfl

/-- Scanner step: a reference without a default to an unset variable fails
with the missing-variable error naming the variable. -/
theorem expand_cons_ref_missing (env : Env) {c : Char} {s name after : Str}
    (h : tryRef (c :: s) = some (name, none, after))
    (henv : env name = none) :
    expand_env_var env (c :: s) = .error (envErrMsg name) := by
  rw [expand_env_var]
  simp only [List.length_cons, expandAux, h, henv]

/-- A string containing no reference pattern anywhere expands to itself. -/
theorem expand_no_ref (env : Env) :
    ∀ (s : Str), hasRef s = false → expand_env_var env s = .ok s := by
  intro s
  induction s with
  | nil => intro h; rfl
  | cons c rest ih =>
      intro h
      rw [hasRef] at h
      simp only [List.tails_cons, List.any_cons, Bool.or_eq_false_iff] at h
      have h1 : tryRef (c :: rest) = none :=
        Option.not_isSome_iff_eq_none.mp (by simp [h.1])
      rw [expand_cons_lit env h1, ih (by rw [hasRef]; exact h.2)]
      rfl

/-- A well-formed reference literal parses to its name, default and the
text after it. -/
theorem tryRef_refStr {name : Str} {dflt : Option Str} (post : Str)
    (hne : name ≠ [])
    (hname : ∀ c ∈ name, c ≠ '}' ∧ c ≠ ':')
    (hdflt : ∀ d, dflt = some d → ∀ c ∈ d, c ≠ '}') :
    tryRef (refStr name dflt ++ post) = some (name, dflt, post) := by
  have hp : ∀ c ∈ name, (fun c => !(c == '}' || c == ':')) c = true := by
    intro c hc
    have hcc := hname c hc
    simp [hcc.1, hcc.2]
  have hnemp : name.isEmpty = false := by
    cases name with
    | nil => exact absurd rfl hne
    | cons _ _ => rfl
  cases dflt with
  | none =>
      have hshape : refStr name none ++ post =
          '$' :: '{' :: (name ++ '}' :: post) := by
        simp [refStr]
      rw [hshape]
      simp only [tryRef]
      rw [takeWhile_append_cons hp (by decide),
        dropWhile_append_cons hp (by decide)]
      simp [hnemp]
  | some d =>
      have hq : ∀ c ∈ d, (fun c => !(c == '}')) c = true := by
        intro c hc
        simp [hdflt d rfl c hc]
      have hshape : refStr name (some d) ++ post =
          '$' :: '{' :: (name ++ ':' :: (d ++ '}' :: post)) := by
        simp [refStr]
      rw [hshape]
      simp only [tryRef]
      rw [takeWhile_append_cons hp (by decide),
        dropWhile_append_cons hp (by decide)]
      have ht : List.takeWhile (fun c => !(c == '}')) (d ++ '}' :: post) = d :=
        takeWhile_append_cons hq (by decide)
      have hd2 : List.dropWhile (fun c => !(c == '}')) (d ++ '}' :: post) =
          '}' :: post :=
        dropWhile_append_cons hq (by decide)
      simp [hnemp, ht, hd2]

/-- The spec example's environment: `TEST_VAR=hello` and nothing else. -/
def envTest : Env := fun n =>
  if n = "TEST_VAR".data then some "hello".data else none

/-- The empty environment. -/
def envEmpty : Env := fun _ => none

/-- C1: for every string, env-var expansion replaces each `$\x7bNAME\x7d` /
`$\x7bNAME:DEFAULT\x7d` occurrence (NAME nonempty, excluding `\x7d` and `:`; DEFAULT
excluding `\x7d`) with the environment value of NAME if set, else DEFAULT if the
default clause is present, else it fails with a missing-variable error
identifying NAME; strings with no such pattern are returned unchanged;
references are expanded left to right, each independently of the rest of the
string; non-string leaves of the configuration tree pass through unchanged;
and the spec's three test vectors hold. -/
theorem C1_env_expansion :
    (∀ (env : Env) (s : Str), hasRef s = false →
      expand_env_var env s = .ok s) ∧
    (∀ (env : Env) (c : Char) (s : Str), tryRef (c :: s) = none →
      expand_env_var env (c :: s) = (expand_env_var env s).map fun t => c :: t) ∧
    (∀ (env : Env) (name : Str) (dflt : Option Str) (post v : Str),
      name ≠ [] → (∀ c ∈ name, c ≠ '}' ∧ c ≠ ':') →
      (∀ d, dflt = some d → ∀ c ∈ d, c ≠ '}') → env name = some v →
      expand_env_var env (refStr name dflt ++ post) =
        (expand_env_var env post).map fun t => v ++ t) ∧
    (∀ (env : Env) (name d post : Str),
      name ≠ [] → (∀ c ∈ name, c ≠ '}' ∧ c ≠ ':') → (∀ c ∈ d, c ≠ '}') →
      env name = none →
      expand_env_var env (refStr name (some d) ++ post) =
        (expand_env_var env post).map fun t => d ++ t) ∧
    (∀ (env : Env) (name post : Str),
      name ≠ [] → (∀ c ∈ name, c ≠ '}' ∧ c ≠ ':') → env name = none →
      expand_env_var env (refStr name none ++ post) =
        .error (envErrMsg name)) ∧
    (∀ (env : Env) (n : Int), expand_config_value env (.int n) = .ok (.int n)) ∧
    (∀ (env : Env) (b : Bool), expand_config_value env (.bool b) = .ok (.bool b)) ∧
    expand_env_var envTest "${TEST_VAR}-world".data = .ok "hello-world".data ∧
    expand_env_var envEmpty "${UNSET_VAR:fallback}".data = .ok "fallback".data ∧
    expand_env_var envEmpty "${UNSET_VAR}".data =
      .error (envErrMsg "UNSET_VAR".data) := by
  refine ⟨expand_no_ref, fun env c s h => expand_cons_lit env h,
    fun env name dflt post v h1 h2 h3 henv =>
      expand_cons_ref_set env (tryRef_refStr post h1 h2 h3) henv,
    fun env name d post h1 h2 h3 henv =>
      expand_cons_ref_dflt env
        (@tryRef_refStr name (some d) post h1 h2 fun d' hd' => by
          cases hd'; exact h3) henv,
    fun env name post h1 h2 henv =>
      expand_cons_ref_missing env
        (@tryRef_refStr name none post h1 h2 fun d' hd' =>
          Option.noConfusion hd') henv,
    fun env n => rfl, fun env b => rfl, by decide, by decide, by decide⟩

/-! ## The configuration schema and save/load round trip
(`src/ax/config/schema.py` and `src/ax/config/manager.py`) -/

/-- `ProfileConfig`. -/
structure ProfileConfig where
  name : String := "default"
  deriving DecidableEq, Repr

/-- `AuthConfig` (the `api_key` field is required). -/
structure AuthConfig where
  api_key : String
  deriving DecidableEq, Repr

/-- The `int | str` type of the transport tunables. -/
inductive IntOrStr where
  | int (n : Int)
  | str (s : String)
  deriving DecidableEq, Repr

/-- `TransportConfig`, with the source's defaults. -/
structure TransportConfig where
  stream_max_workers : IntOrStr := .int 8
  stream_max_queue_bound : IntOrStr := .int 5000
  pyarrow_max_chunksize : IntOrStr := .int 10000
  max_http_payload_size_mb : IntOrStr := .int 8
  deriving DecidableEq, Repr

/-- `SecurityConfig`. -/
structure SecurityConfig where
  request_verify : BoolOrStr := .bool true
  deriving DecidableEq, Repr

/-- `StorageConfig`. -/
structure StorageConfig where
  directory : String := "~/.arize"
  cache_enabled : Bool := true
  deriving DecidableEq, Repr

/-- `OutputConfig`; the `Literal` constraint on `format` is enforced by its
parser below. -/
structure OutputConfig where
  format : String := "table"
  deriving DecidableEq, Repr

/-- The root `Config` model. -/
structure Config where
  profile : ProfileConfig := {}
  auth : AuthConfig
  routing : RoutingConfig := {}
  transport : TransportConfig := {}
  security : SecurityConfig := {}
  storage : StorageConfig := {}
  output : OutputConfig := {}
  deriving DecidableEq, Repr

/-- `model_dump(mode="json")` of an `int | str` value. -/
def IntOrStr.toToml : IntOrStr → TomlVal
  | .int n => .int n
  | .str s => .str s

/-- `model_dump(mode="json")` of a `bool | str` value. -/
def BoolOrStr.toToml : BoolOrStr → TomlVal
  | .bool b => .bool b
  | .str s => .str s

/-- Dump of the profile section. -/
def ProfileConfig.dump (p : ProfileConfig) : TomlTable :=
  .cons "name" (.str p.name) .nil

/-- Dump of the auth section. -/
def AuthConfig.dump (a : AuthConfig) : TomlTable :=
  .cons "api_key" (.str a.api_key) .nil

/-- Dump of the routing section (pydantic dumps fields in declaration
order). -/
def RoutingConfig.dump (r : RoutingConfig) : TomlTable :=
  .cons "region" (.str r.region) (.cons "single_host" (.str r.single_host)
    (.cons "single_port" (.str r.single_port)
      (.cons "base_domain" (.str r.base_domain)
        (.cons "api_host" (.str r.api_host)
          (.cons "api_scheme" (.str r.api_scheme)
            (.cons "otlp_host" (.str r.otlp_host)
              (.cons "otlp_scheme" (.str r.otlp_scheme)
                (.cons "flight_host" (.str r.flight_host)
                  (.cons "flight_port" (.str r.flight_port)
                    (.cons "flight_scheme" (.str r.flight_scheme) .nil))))))))))

/-- Dump of the transport section. -/
def TransportConfig.dump (t : TransportConfig) : TomlTable :=
  .cons "stream_max_workers" t.stream_max_workers.toToml
    (.cons "stream_max_queue_bound" t.stream_max_queue_bound.toToml
      (.cons "pyarrow_max_chunksize" t.pyarrow_max_chunksize.toToml
        (.cons "max_http_payload_size_mb" t.max_http_payload_size_mb.toToml
          .nil)))

/-- Dump of the security section. -/
def SecurityConfig.dump (s : SecurityConfig) : TomlTable :=
  .cons "request_verify" s.request_verify.toToml .nil

/-- Dump of the storage section. -/
def StorageConfig.dump (s : StorageConfig) : TomlTable :=
  .cons "directory" (.str s.directory)
    (.cons "cache_enabled" (.bool s.cache_enabled) .nil)

/-- Dump of the output section. -/
def OutputConfig.dump (o : OutputConfig) : TomlTable :=
  .cons "format" (.str o.format) .nil

/-- `config.model_dump(mode="json", exclude_none=True)`: the nested
dictionary written by `ConfigManager.save` (no field of a valid config is
`None`). -/
def Config.dump (c : Config) : TomlTable :=
  .cons "profile" (.table c.profile.dump)
    (.cons "auth" (.table c.auth.dump)
      (.cons "routing" (.table c.routing.dump)
        (.cons "transport" (.table c.transport.dump)
          (.cons "security" (.table c.security.dump)
            (.cons "storage" (.table c.storage.dump)
              (.cons "output" (.table c.output.dump) .nil))))))

/-- The `v != ""` test of `_remove_empty_values` (no value is `None` in a
dumped config; only the empty string compares equal to `""`). -/
def TomlVal.isEmptyStr : TomlVal → Bool
  | .str s => s == ""
  | _ => false

mutual
/-- `_remove_empty_values` on a value: recurse into dictionaries, return
everything else unchanged. -/
def removeEmptyVal : TomlVal → TomlVal
  | .table t => .table (removeEmptyTable t)
  | v => v

/-- `_remove_empty_values` on a dictionary: drop empty-string entries,
recurse into the kept values. -/
def removeEmptyTable : TomlTable → TomlTable
  | .nil => .nil
  | .cons k v rest =>
      if v.isEmptyStr then removeEmptyTable rest
      else .cons k (removeEmptyVal v) (removeEmptyTable rest)
end

/-- The dictionary `ConfigManager.save` persists for a config under a
profile name: the profile-name field is overwritten with the name saved
under, then empty values are stripped (`tomli_w.dump` / `tomllib.load`
round-trips this dictionary as is). -/
def saveDump (c : Config) (profile : String) : TomlTable :=
  removeEmptyTable (Config.dump { c with profile := { name := profile } })

/-- Python dictionary lookup on a parsed table. -/
def lookupT (k : String) : TomlTable → Option TomlVal
  | .nil => none
  | .cons k2 v rest => if k2 = k then some v else lookupT k rest

/-- The keys of a table. -/
def TomlTable.keys : TomlTable → List String
  | .nil => []
  | .cons k _ rest => k :: keys rest

/-- Pydantic string field with a default: absent means the default, a
present value must be a string. -/
def getStrD (o : Option TomlVal) (d : String) : Except String String :=
  match o with
  | none => .ok d
  | some (.str s) => .ok s
  | some _ => .error "type error: expected a string"

/-- Pydantic `int | str` field with a default. -/
def getIntOrStrD (o : Option TomlVal) (d : IntOrStr) : Except String IntOrStr :=
  match o with
  | none => .ok d
  | some (.int n) => .ok (.int n)
  | some (.str s) => .ok (.str s)
  | some _ => .error "type error: expected an int or a string"

/-- Pydantic `bool | str` field with a default. -/
def getBoolOrStrD (o : Option TomlVal) (d : BoolOrStr) : Except String BoolOrStr :=
  match o with
  | none => .ok d
  | some (.bool b) => .ok (.bool b)
  | some (.str s) => .ok (.str s)
  | some _ => .error "type error: expected a bool or a string"

/-- Pydantic `bool` field with a default. -/
def getBoolD (o : Option TomlVal) (d : Bool) : Except String Bool :=
  match o with
  | none => .ok d
  | some (.bool b) => .ok b
  | some _ => .error "type error: expected a bool"

/-- Construction of the profile section from its table (defaults for a
missing section or field). -/
def ProfileConfig.ofToml (o : Option TomlVal) : Except String ProfileConfig :=
  match o with
  | none => .ok {}
  | some (.table t) =>
      (match getStrD (lookupT "name" t) "default" with
      | .ok n => .ok { name := n }
      | .error e => .error e)
  | some _ => .error "type error: profile must be a table"

/-- Construction of the auth section: the section and its `api_key` field
are required, and the field validator runs. -/
def AuthConfig.ofToml (o : Option TomlVal) : Except String AuthConfig :=
  match o with
  | none => .error "field required: auth"
  | some (.table t) =>
      (match lookupT "api_key" t with
      | none => .error "field required: auth.api_key"
      | some (.str s) =>
          (match validateApiKey s with
          | .ok k => .ok { api_key := k }
          | .error e => .error e)
      | some _ => .error "type error: api_key must be a string")
  | some _ => .error "type error: auth must be a table"

/-- Construction of the routing section: parse the eleven fields with their
defaults, then run the `region` field validator and the after-model
validator. -/
def RoutingConfig.ofToml (validRegions : List String) (o : Option TomlVal) :
    Except String RoutingConfig :=
  match o with
  | none => RoutingConfig.validate validRegions {}
  | some (.table t) => do
      let region ← getStrD (lookupT "region" t) ""
      let single_host ← getStrD (lookupT "single_host" t) ""
      let single_port ← getStrD (lookupT "single_port" t) ""
      let base_domain ← getStrD (lookupT "base_domain" t) ""
      let api_host ← getStrD (lookupT "api_host" t) "api.arize.com"
      let api_scheme ← getStrD (lookupT "api_scheme" t) "https"
      let otlp_host ← getStrD (lookupT "otlp_host" t) "otlp.arize.com"
      let otlp_scheme ← getStrD (lookupT "otlp_scheme" t) "https"
      let flight_host ← getStrD (lookupT "flight_host" t) "flight.arize.com"
      let flight_port ← getStrD (lookupT "flight_port" t) "443"
      let flight_scheme ← getStrD (lookupT "flight_scheme" t) "grpc+tls"
      RoutingConfig.validate validRegions
        { region := region, single_host := single_host,
          single_port := single_port, base_domain := base_domain,
          api_host := api_host, api_scheme := api_scheme,
          otlp_host := otlp_host, otlp_scheme := otlp_scheme,
          flight_host := flight_host, flight_port := flight_port,
          flight_scheme := flight_scheme }
  | some _ => .error "type error: routing must be a table"

/-- Construction of the transport section. -/
def TransportConfig.ofToml (o : Option TomlVal) : Except String TransportConfig :=
  match o with
  | none => .ok {}
  | some (.table t) => do
      let w ← getIntOrStrD (lookupT "stream_max_workers" t) (.int 8)
      let q ← getIntOrStrD (lookupT "stream_max_queue_bound" t) (.int 5000)
      let ch ← getIntOrStrD (lookupT "pyarrow_max_chunksize" t) (.int 10000)
      let pl ← getIntOrStrD (lookupT "max_http_payload_size_mb" t) (.int 8)
      .ok { stream_max_workers := w, stream_max_queue_bound := q,
            pyarrow_max_chunksize := ch, max_http_payload_size_mb := pl }
  | some _ => .error "type error: transport must be a table"

/-- Construction of the security section. -/
def SecurityConfig.ofToml (o : Option TomlVal) : Except String SecurityConfig :=
  match o with
  | none => .ok {}
  | some (.table t) =>
      (match getBoolOrStrD (lookupT "request_verify" t) (.bool true) with
      | .ok v => .ok { request_verify := v }
      | .error e => .error e)
  | some _ => .error "type error: security must be a table"

/-- Construction of the storage section. -/
def StorageConfig.ofToml (o : Option TomlVal) : Except String StorageConfig :=
  match o with
  | none => .ok {}
  | some (.table t) => do
      let d ← getStrD (lookupT "directory" t) "~/.arize"
      let ce ← getBoolD (lookupT "cache_enabled" t) true
      .ok { directory := d, cache_enabled := ce }
  | some _ => .error "type error: storage must be a table"

/-- Construction of the output section; the `Literal` type of `format`
restricts it to the four format names. -/
def OutputConfig.ofToml (o : Option TomlVal) : Except String OutputConfig :=
  match o with
  | none => .ok {}
  | some (.table t) =>
      (match getStrD (lookupT "format" t) "table" with
      | .ok f =>
          if f ∈ (["table", "json", "csv", "parquet"] : List String) then
            .ok { format := f }
          else .error "invalid output format"
      | .error e => .error e)
  | some _ => .error "type error: output must be a table"

/-- `Config(**data)`: construct and validate every section from the parsed
dictionary, applying schema defaults for missing fields.  This is the
validation `ConfigManager.load` runs after `tomllib` parsing (here without
env expansion). -/
def Config.ofToml (validRegions : List String) (t : TomlTable) :
    Except String Config := do
  let profile ← ProfileConfig.ofToml (lookupT "profile" t)
  let auth ← AuthConfig.ofToml (lookupT "auth" t)
  let routing ← RoutingConfig.ofToml validRegions (lookupT "routing" t)
  let transport ← TransportConfig.ofToml (lookupT "transport" t)
  let security ← SecurityConfig.ofToml (lookupT "security" t)
  let storage ← StorageConfig.ofToml (lookupT "storage" t)
  let output ← OutputConfig.ofToml (lookupT "output" t)
  .ok { profile := profile, auth := auth, routing := routing,
        transport := transport, security := security, storage := storage,
        output := output }

/-- A configuration the schema validators accept as-is (what "valid
Configuration" means: the validators fix it). -/
def Config.Valid (validRegions : List String) (c : Config) : Prop :=
  validateApiKey c.auth.api_key = .ok c.auth.api_key ∧
  RoutingConfig.validate validRegions c.routing = .ok c.routing ∧
  c.output.format ∈ (["table", "json", "csv", "parquet"] : List String)

/-- Empty-string fields fall back to a default on reload. -/
def strOrDefault (s d : String) : String := if s = "" then d else s

/-- An `int | str` field that was dumped as the empty string falls back to
its default on reload. -/
def IntOrStr.orDefault (v d : IntOrStr) : IntOrStr :=
  match v with
  | .str s => if s = "" then d else .str s
  | v => v

/-- A `bool | str` field that was dumped as the empty string falls back to
its default on reload. -/
def BoolOrStr.orDefault (v d : BoolOrStr) : BoolOrStr :=
  match v with
  | .str s => if s = "" then d else .str s
  | v => v

/-- What loading a saved config gives back: the original with its profile
name replaced by the name it was saved under, and every field that was an
empty string replaced by its schema default. -/
def normalizeOnLoad (profile : String) (c : Config) : Config :=
  { profile := { name := strOrDefault profile "default" },
    auth := { api_key := c.auth.api_key },
    routing := { region := c.routing.region,
                 single_host := c.routing.single_host,
                 single_port := c.routing.single_port,
                 base_domain := c.routing.base_domain,
                 api_host := strOrDefault c.routing.api_host "api.arize.com",
                 api_scheme := strOrDefault c.routing.api_scheme "https",
                 otlp_host := strOrDefault c.routing.otlp_host "otlp.arize.com",
                 otlp_scheme := strOrDefault c.routing.otlp_scheme "https",
                 flight_host :=
                   strOrDefault c.routing.flight_host "flight.arize.com",
                 flight_port := strOrDefault c.routing.flight_port "443",
                 flight_scheme :=
                   strOrDefault c.routing.flight_scheme "grpc+tls" },
    transport := { stream_max_workers :=
                     c.transport.stream_max_workers.orDefault (.int 8),
                   stream_max_queue_bound :=
                     c.transport.stream_max_queue_bound.orDefault (.int 5000),
                   pyarrow_max_chunksize :=
                     c.transport.pyarrow_max_chunksize.orDefault (.int 10000),
                   max_http_payload_size_mb :=
                     c.transport.max_http_payload_size_mb.orDefault (.int 8) },
    security := { request_verify :=
                    c.security.request_verify.orDefault (.bool true) },
    storage := { directory := strOrDefault c.storage.directory "~/.arize",
                 cache_enabled := c.storage.cache_enabled },
    output := { format := c.output.format } }

/-- Lookup misses when the key is absent. -/
theorem lookupT_eq_none {k : String} :
    ∀ {t : TomlTable}, k ∉ t.keys → lookupT k t = none
  | .nil, _ => rfl
  | .cons k2 v rest, h => by
      simp only [TomlTable.keys, List.mem_cons, not_or] at h
      rw [lookupT, if_neg fun he => h.1 he.symm]
      exact lookupT_eq_none h.2

/-- Lookup through `_remove_empty_values` on a table with distinct keys:
an empty-string entry disappears, any other entry survives with empties
removed inside it. -/
theorem lookupT_removeEmptyTable (k : String) :
    ∀ {t : TomlTable}, t.keys.Nodup →
      lookupT k (removeEmptyTable t) =
        match lookupT k t with
        | none => none
        | some v => if v.isEmptyStr then none else some (removeEmptyVal v)
  | .nil, _ => rfl
  | .cons k2 v rest, hnd => by
      simp only [TomlTable.keys, List.nodup_cons] at hnd
      by_cases hk : k2 = k
      · subst hk
        rw [removeEmptyTable]
        by_cases he : v.isEmptyStr
        · rw [if_pos he, lookupT_removeEmptyTable k2 hnd.2,
            lookupT_eq_none hnd.1, lookupT, if_pos rfl]
          simp [he]
        · rw [if_neg he, lookupT, if_pos rfl, lookupT, if_pos rfl]
          simp [he]
      · rw [removeEmptyTable]
        by_cases he : v.isEmptyStr
        · rw [if_pos he, lookupT_removeEmptyTable k hnd.2, lookupT, if_neg hk]
        · rw [if_neg he, lookupT, if_neg hk,
            lookupT_removeEmptyTable k hnd.2, lookupT, if_neg hk]


/-- A string field read back through the empty-value filter: the default
when the stored string was empty, the string itself otherwise. -/
theorem getStrD_strip (x d : String) :
    getStrD (if (TomlVal.str x).isEmptyStr = true then none
      else some (removeEmptyVal (.str x))) d = .ok (strOrDefault x d) := by
  by_cases h : x = "" <;>
    simp [TomlVal.isEmptyStr, h, getStrD, removeEmptyVal, strOrDefault]

/-- Round trip of the profile section. -/
theorem profile_ofToml_save (p : String) :
    ProfileConfig.ofToml (some (.table (removeEmptyTable
      (ProfileConfig.dump { name := p })))) =
      .ok { name := strOrDefault p "default" } := by
  have hnd : (ProfileConfig.dump { name := p }).keys.Nodup := by
    simp [ProfileConfig.dump, TomlTable.keys]
  simp only [ProfileConfig.ofToml]
  rw [lookupT_removeEmptyTable "name" hnd,
    show lookupT "name" (ProfileConfig.dump { name := p }) = some (.str p)
      from rfl]
  simp only [getStrD_strip]

/-- An `int | str` field read back through the empty-value filter. -/
theorem getIntOrStrD_strip (v d : IntOrStr) :
    getIntOrStrD (if v.toToml.isEmptyStr = true then none
      else some (removeEmptyVal v.toToml)) d = .ok (v.orDefault d) := by
  cases v with
  | int n =>
      simp [IntOrStr.toToml, TomlVal.isEmptyStr, removeEmptyVal,
        getIntOrStrD, IntOrStr.orDefault]
  | str x =>
      by_cases h : x = "" <;>
        simp [IntOrStr.toToml, TomlVal.isEmptyStr, h, removeEmptyVal,
          getIntOrStrD, IntOrStr.orDefault]

/-- A `bool | str` field read back through the empty-value filter. -/
theorem getBoolOrStrD_strip (v d : BoolOrStr) :
    getBoolOrStrD (if v.toToml.isEmptyStr = true then none
      else some (removeEmptyVal v.toToml)) d = .ok (v.orDefault d) := by
  cases v with
  | bool b =>
      simp [BoolOrStr.toToml, TomlVal.isEmptyStr, removeEmptyVal,
        getBoolOrStrD, BoolOrStr.orDefault]
  | str x =>
      by_cases h : x = "" <;>
        simp [BoolOrStr.toToml, TomlVal.isEmptyStr, h, removeEmptyVal,
          getBoolOrStrD, BoolOrStr.orDefault]

/-- A `bool` field is never dropped by the empty-value filter. -/
theorem getBoolD_strip (b d : Bool) :
    getBoolD (if (TomlVal.bool b).isEmptyStr = true then none
      else some (removeEmptyVal (.bool b))) d = .ok b := by
  simp [TomlVal.isEmptyStr, removeEmptyVal, getBoolD]

/-- Round trip of the auth section: a validated api_key survives the
filter and re-validation unchanged. -/
theorem auth_ofToml_save (a : AuthConfig)
    (hv : validateApiKey a.api_key = .ok a.api_key) :
    AuthConfig.ofToml (some (.table (removeEmptyTable a.dump))) =
      .ok { api_key := a.api_key } := by
  have hne : a.api_key ≠ "" := by
    intro h
    rw [validateApiKey, if_pos (Or.inl h)] at hv
    exact Except.noConfusion hv
  have hnd : a.dump.keys.Nodup := by
    simp [AuthConfig.dump, TomlTable.keys]
  simp only [AuthConfig.ofToml]
  rw [lookupT_removeEmptyTable "api_key" hnd,
    show lookupT "api_key" a.dump = some (.str a.api_key) from rfl]
  simp only [TomlVal.isEmptyStr, removeEmptyVal]
  rw [if_neg (by simp [hne])]
  simp [hv]


/-- A field whose schema default is the empty string always reloads to its
original value. -/
theorem strOrDefault_empty (x : String) : strOrDefault x "" = x := by
  by_cases h : x = "" <;> simp [strOrDefault, h]

/-- Round trip of the routing section: the strategy fields (whose defaults
are empty) reload unchanged, the custom-endpoint fields fall back to their
defaults when they were empty, and re-validation passes. -/
theorem routing_ofToml_save (vr : List String) (r : RoutingConfig)
    (hv : RoutingConfig.validate vr r = .ok r) :
    RoutingConfig.ofToml vr (some (.table (removeEmptyTable r.dump))) =
      .ok { region := r.region, single_host := r.single_host,
            single_port := r.single_port, base_domain := r.base_domain,
            api_host := strOrDefault r.api_host "api.arize.com",
            api_scheme := strOrDefault r.api_scheme "https",
            otlp_host := strOrDefault r.otlp_host "otlp.arize.com",
            otlp_scheme := strOrDefault r.otlp_scheme "https",
            flight_host := strOrDefault r.flight_host "flight.arize.com",
            flight_port := strOrDefault r.flight_port "443",
            flight_scheme := strOrDefault r.flight_scheme "grpc+tls" } := by
  have hnd : r.dump.keys.Nodup := by
    simp [RoutingConfig.dump, TomlTable.keys]
  simp only [RoutingConfig.ofToml]
  rw [lookupT_removeEmptyTable "region" hnd,
    show lookupT "region" r.dump = some (.str r.region) from rfl,
    lookupT_removeEmptyTable "single_host" hnd,
    show lookupT "single_host" r.dump = some (.str r.single_host) from rfl,
    lookupT_removeEmptyTable "single_port" hnd,
    show lookupT "single_port" r.dump = some (.str r.single_port) from rfl,
    lookupT_removeEmptyTable "base_domain" hnd,
    show lookupT "base_domain" r.dump = some (.str r.base_domain) from rfl,
    lookupT_removeEmptyTable "api_host" hnd,
    show lookupT "api_host" r.dump = some (.str r.api_host) from rfl,
    lookupT_removeEmptyTable "api_scheme" hnd,
    show lookupT "api_scheme" r.dump = some (.str r.api_scheme) from rfl,
    lookupT_removeEmptyTable "otlp_host" hnd,
    show lookupT "otlp_host" r.dump = some (.str r.otlp_host) from rfl,
    lookupT_removeEmptyTable "otlp_scheme" hnd,
    show lookupT "otlp_scheme" r.dump = some (.str r.otlp_scheme) from rfl,
    lookupT_removeEmptyTable "flight_host" hnd,
    show lookupT "flight_host" r.dump = some (.str r.flight_host) from rfl,
    lookupT_removeEmptyTable "flight_port" hnd,
    show lookupT "flight_port" r.dump = some (.str r.flight_port) from rfl,
    lookupT_removeEmptyTable "flight_scheme" hnd,
    show lookupT "flight_scheme" r.dump = some (.str r.flight_scheme) from rfl]
  simp only [getStrD_strip, Except.bind, bind]
  simp only [strOrDefault_empty]
  -- remaining: RoutingConfig.validate vr (record with r's strategy fields) = .ok ...
  cases hreg : validateRegion vr r.region with
  | error e =>
      rw [RoutingConfig.validate, hreg] at hv
      exact absurd hv (by simp)
  | ok w =>
      rw [RoutingConfig.validate, hreg] at hv
      rw [RoutingConfig.validate]
      rw [show validateRegion vr
        ({ region := r.region, single_host := r.single_host,
           single_port := r.single_port, base_domain := r.base_domain,
           api_host := strOrDefault r.api_host "api.arize.com",
           api_scheme := strOrDefault r.api_scheme "https",
           otlp_host := strOrDefault r.otlp_host "otlp.arize.com",
           otlp_scheme := strOrDefault r.otlp_scheme "https",
           flight_host := strOrDefault r.flight_host "flight.arize.com",
           flight_port := strOrDefault r.flight_port "443",
           flight_scheme := strOrDefault r.flight_scheme "grpc+tls" } :
             RoutingConfig).region = validateRegion vr r.region from rfl, hreg]
      have hcount : ¬ r.activeCount > 1 := by
        intro hgt
        rw [RoutingConfig.validateMutuallyExclusive, if_pos hgt] at hv
        exact Except.noConfusion hv
      rw [RoutingConfig.validateMutuallyExclusive,
        if_neg (by simpa [RoutingConfig.activeCount] using hcount)]


/-- Round trip of the transport section. -/
theorem transport_ofToml_save (tc : TransportConfig) :
    TransportConfig.ofToml (some (.table (removeEmptyTable tc.dump))) =
      .ok { stream_max_workers := tc.stream_max_workers.orDefault (.int 8),
            stream_max_queue_bound :=
              tc.stream_max_queue_bound.orDefault (.int 5000),
            pyarrow_max_chunksize :=
              tc.pyarrow_max_chunksize.orDefault (.int 10000),
            max_http_payload_size_mb :=
              tc.max_http_payload_size_mb.orDefault (.int 8) } := by
  have hnd : tc.dump.keys.Nodup := by
    simp [TransportConfig.dump, TomlTable.keys]
  simp only [TransportConfig.ofToml]
  rw [lookupT_removeEmptyTable "stream_max_workers" hnd,
    show lookupT "stream_max_workers" tc.dump =
      some tc.stream_max_workers.toToml from rfl,
    lookupT_removeEmptyTable "stream_max_queue_bound" hnd,
    show lookupT "stream_max_queue_bound" tc.dump =
      some tc.stream_max_queue_bound.toToml from rfl,
    lookupT_removeEmptyTable "pyarrow_max_chunksize" hnd,
    show lookupT "pyarrow_max_chunksize" tc.dump =
      some tc.pyarrow_max_chunksize.toToml from rfl,
    lookupT_removeEmptyTable "max_http_payload_size_mb" hnd,
    show lookupT "max_http_payload_size_mb" tc.dump =
      some tc.max_http_payload_size_mb.toToml from rfl]
  simp only [getIntOrStrD_strip, Except.bind, bind]

/-- Round trip of the security section. -/
theorem security_ofToml_save (sc : SecurityConfig) :
    SecurityConfig.ofToml (some (.table (removeEmptyTable sc.dump))) =
      .ok { request_verify := sc.request_verify.orDefault (.bool true) } := by
  have hnd : sc.dump.keys.Nodup := by
    simp [SecurityConfig.dump, TomlTable.keys]
  simp only [SecurityConfig.ofToml]
  rw [lookupT_removeEmptyTable "request_verify" hnd,
    show lookupT "request_verify" sc.dump =
      some sc.request_verify.toToml from rfl]
  simp only [getBoolOrStrD_strip]

/-- Round trip of the storage section. -/
theorem storage_ofToml_save (sc : StorageConfig) :
    StorageConfig.ofToml (some (.table (removeEmptyTable sc.dump))) =
      .ok { directory := strOrDefault sc.directory "~/.arize",
            cache_enabled := sc.cache_enabled } := by
  have hnd : sc.dump.keys.Nodup := by
    simp [StorageConfig.dump, TomlTable.keys]
  simp only [StorageConfig.ofToml]
  rw [lookupT_removeEmptyTable "directory" hnd,
    show lookupT "directory" sc.dump = some (.str sc.directory) from rfl,
    lookupT_removeEmptyTable "cache_enabled" hnd,
    show lookupT "cache_enabled" sc.dump =
      some (.bool sc.cache_enabled) from rfl]
  simp only [getStrD_strip, getBoolD_strip, Except.bind, bind]

/-- Round trip of the output section. -/
theorem output_ofToml_save (oc : OutputConfig)
    (hv : oc.format ∈ (["table", "json", "csv", "parquet"] : List String)) :
    OutputConfig.ofToml (some (.table (removeEmptyTable oc.dump))) =
      .ok { format := oc.format } := by
  have hnd : oc.dump.keys.Nodup := by
    simp [OutputConfig.dump, TomlTable.keys]
  simp only [OutputConfig.ofToml]
  rw [lookupT_removeEmptyTable "format" hnd,
    show lookupT "format" oc.dump = some (.str oc.format) from rfl]
  have hne : oc.format ≠ "" := by
    intro h
    rw [h] at hv
    exact absurd hv (by decide)
  simp only [getStrD_strip, strOrDefault, if_neg hne]
  rw [if_pos hv]


/-- C3 (amended): for every valid configuration, saving under a name and
loading that name without env expansion yields the original with its
profile name replaced by the save name, and with every field that was an
empty string dropped from the file and reappearing as its schema
default. -/
theorem C3_save_load_roundtrip (validRegions : List String) (c : Config)
    (profile : String) (hv : Config.Valid validRegions c) :
    Config.ofToml validRegions (saveDump c profile) =
      .ok (normalizeOnLoad profile c) := by
  obtain ⟨hv1, hv2, hv3⟩ := hv
  have hp : lookupT "profile" (saveDump c profile) =
      some (.table (removeEmptyTable (ProfileConfig.dump { name := profile }))) :=
    rfl
  have ha : lookupT "auth" (saveDump c profile) =
      some (.table (removeEmptyTable c.auth.dump)) := rfl
  have hr : lookupT "routing" (saveDump c profile) =
      some (.table (removeEmptyTable c.routing.dump)) := rfl
  have ht : lookupT "transport" (saveDump c profile) =
      some (.table (removeEmptyTable c.transport.dump)) := rfl
  have hs : lookupT "security" (saveDump c profile) =
      some (.table (removeEmptyTable c.security.dump)) := rfl
  have hg : lookupT "storage" (saveDump c profile) =
      some (.table (removeEmptyTable c.storage.dump)) := rfl
  have ho : lookupT "output" (saveDump c profile) =
      some (.table (removeEmptyTable c.output.dump)) := rfl
  simp only [Config.ofToml]
  rw [hp, ha, hr, ht, hs, hg, ho,
    profile_ofToml_save profile,
    auth_ofToml_save c.auth hv1,
    routing_ofToml_save validRegions c.routing hv2,
    transport_ofToml_save c.transport,
    security_ofToml_save c.security,
    storage_ofToml_save c.storage,
    output_ofToml_save c.output hv3]
  simp only [Except.bind, bind, normalizeOnLoad]


/-- A valid configuration whose stored profile name differs from the name
it is saved under. -/
def c3orig : Config :=
  { profile := { name := "alpha" }, auth := { api_key := "k" } }

/-- C3 counterexample: the claim says the loaded value equals the original
except for empty/unset fields, but saving the configuration named
`"alpha"` under `"beta"` loads back with profile name `"beta"` — a
non-empty field changed. -/
theorem C3_counterexample :
    (Config.ofToml [] (saveDump c3orig "beta")).map (fun c => c.profile.name) =
      .ok "beta" ∧
    c3orig.profile.name = "alpha" ∧ ("alpha" : String) ≠ "" ∧
    ("beta" : String) ≠ "alpha" := by
  refine ⟨by decide, rfl, by decide, by decide⟩

/-- A valid configuration exercising empty fields of every section. -/
def c3witnessCfg : Config :=
  { profile := { name := "whatever" },
    auth := { api_key := "secret-key" },
    routing := { region := "us-east-1", api_host := "", flight_port := "" },
    transport := { stream_max_workers := .str "", pyarrow_max_chunksize := .str "${ARIZE_MAX_CHUNKSIZE:64}" },
    security := { request_verify := .str "" },
    storage := { directory := "", cache_enabled := false },
    output := { format := "csv" } }

/-- C3 witness: the round trip evaluated at a concrete valid configuration
with empty custom-endpoint, transport, security and storage fields. -/
theorem C3_save_load_roundtrip_witness :
    Config.Valid ["us-east-1"] c3witnessCfg ∧
    Config.ofToml ["us-east-1"] (saveDump c3witnessCfg "prof1") =
      .ok (normalizeOnLoad "prof1" c3witnessCfg) :=
  ⟨⟨by decide, by decide, by decide⟩,
   C3_save_load_roundtrip ["us-east-1"] c3witnessCfg "prof1"
     ⟨by decide, by decide, by decide⟩⟩


